import Mathlib

/-!
Verification of the multi-source search-and-synthesize pipeline and the
Backlog urgent-issue notification path of the repository.

The TypeScript sources are shallowly embedded: each workflow step's
`execute` body becomes a pure Lean function.  External HTTP calls and the
language-model call are modelled as oracle values/functions supplied as
arguments; every failure mode the code distinguishes (missing credentials,
a thrown exception, a non-success HTTP status) is represented explicitly.
JavaScript string truthiness (`x || y`, `!x`) is modelled by `jsTruthy` /
`jsOr`.
-/

namespace MastraSpec

/-- JavaScript truthiness of an optional string value: `undefined` and the
empty string are both falsy. -/
def jsTruthy (o : Option String) : Bool :=
  !(o.getD "").isEmpty

/-- JavaScript `x || d` for an optional string `x`: the string itself when
truthy, otherwise the default `d`. -/
def jsOr (o : Option String) (d : String) : String :=
  if jsTruthy o then o.getD "" else d

/-- One search hit, as produced by the `multi-source-search` step
(`source`, `pageId`, `title`, `url` in the step's output schema). -/
structure SearchResult where
  source : String
  pageId : String
  title : String
  url : String
deriving DecidableEq, Repr

/-- Output of the `multi-source-search` step: the concatenated results plus
an optional error string. -/
structure AggregatedSearch where
  results : List SearchResult
  error : Option String
deriving DecidableEq, Repr

/-- Outcome of one external HTTP call as the TypeScript code distinguishes
them: the call threw (network error or any exception before/around it),
the response had a non-success status (`response.ok` false), or it
succeeded with a decoded payload. -/
inductive HttpOutcome (α : Type) where
  | exn (msg : String)
  | notOk
  | ok (payload : α)

/-- True exactly on the `ok` constructor. -/
def HttpOutcome.isOk : HttpOutcome α → Bool
  | .ok _ => true
  | _ => false

/-- Environment variables read by the search step (each `process.env.X || ""`,
so a missing variable is the empty string). -/
structure SearchEnv where
  confluenceBaseUrl : String
  confluenceApiToken : String
  confluenceUserEmail : String
  notionApiToken : String
  backlogSpaceId : String
  backlogApiKey : String
deriving DecidableEq, Repr

/-- One raw Confluence search hit: `result.content` (its `id` and `title`
when present) and `result.url`. -/
structure ConfluenceRawResult where
  content : Option (String × String)
  url : String

/-- Results contributed by the Confluence block of `multi-source-search`:
missing credentials throw inside the block's `try` (caught, zero results);
an exception or non-ok response also contributes zero results; on success
each hit that has a `content` field is pushed. -/
def confluenceContribution (env : SearchEnv)
    (o : HttpOutcome (List ConfluenceRawResult)) : List SearchResult :=
  if env.confluenceBaseUrl.isEmpty || env.confluenceApiToken.isEmpty then []
  else
    match o with
    | .exn _ => []
    | .notOk => []
    | .ok rs =>
      rs.filterMap fun r =>
        r.content.map fun c =>
          { source := "confluence", pageId := c.1, title := c.2,
            url := env.confluenceBaseUrl ++ "/wiki" ++ r.url }

/-- One raw Notion search hit.  `titlePlain` stands for
`page.properties.(title|Name).title[0].plain_text` and `richTextPlain` for
`page.properties.(title|Name).rich_text[0].plain_text`, each absent when
the optional-chaining lookup yields `undefined`. -/
structure NotionRawPage where
  id : String
  url : String
  titlePlain : Option String
  richTextPlain : Option String

/-- Title extraction for a Notion hit: the first truthy plain text among
the `title` and `rich_text` lookups, defaulting to `"Untitled"`. -/
def notionPageTitle (p : NotionRawPage) : String :=
  if jsTruthy p.titlePlain then p.titlePlain.getD ""
  else if jsTruthy p.richTextPlain then p.richTextPlain.getD ""
  else "Untitled"

/-- Results contributed by the Notion block: a missing token only warns
(zero results); an exception or non-ok response contributes zero results;
on success every page is pushed. -/
def notionContribution (env : SearchEnv)
    (o : HttpOutcome (List NotionRawPage)) : List SearchResult :=
  if env.notionApiToken.isEmpty then []
  else
    match o with
    | .exn _ => []
    | .notOk => []
    | .ok pages =>
      pages.map fun p =>
        { source := "notion", pageId := p.id, title := notionPageTitle p,
          url := p.url }

/-- A Backlog project as returned by `/projects`. -/
structure BacklogProject where
  id : Nat
  name : String

/-- A Backlog issue as consumed by the search/urgent listing.  The
`dueDate` string is modelled by its parsed timestamp in milliseconds
(`new Date(issue.dueDate).getTime()`); `none` covers an absent/falsy
`dueDate`. -/
structure BacklogRawIssue where
  id : Nat
  issueKey : String
  summary : String
  dueDateMs : Option Int
  priorityName : Option String
  statusName : Option String
  assigneeName : Option String
deriving DecidableEq, Repr

/-- `Math.ceil((due.getTime() - now.getTime()) / (1000 * 60 * 60 * 24))`,
as exact integer ceiling division of the millisecond difference by
86400000 (`getDaysUntilDue` in `backlogTool.ts`, inlined in the
`multi-source-search` step). -/
def getDaysUntilDue (dueMs nowMs : Int) : Int :=
  (dueMs - nowMs + (86400000 - 1)).ediv 86400000

/-- Due-date filter of the Backlog block of `multi-source-search`:
`diffDays <= daysThreshold && diffDays >= 0`.  In the step itself
`daysThreshold` is the local constant 14. -/
def upcomingDueFilter (daysThreshold diffDays : Int) : Bool :=
  decide (diffDays ≤ daysThreshold) && decide (0 ≤ diffDays)

/-- Title built for a matching Backlog issue:
`[<diffDays>日後期限] <summary> (<project name>)`. -/
def backlogIssueTitle (diffDays : Int) (summary projectName : String) : String :=
  "[" ++ toString diffDays ++ "日後期限] " ++ summary ++ " (" ++ projectName ++ ")"

/-- Results contributed by the Backlog block: missing credentials warn
(zero results); a failed projects call contributes zero results; each
project's issues call is independently guarded, and each issue with a due
date passing `upcomingDueFilter` is pushed. -/
def backlogContribution (env : SearchEnv) (nowMs daysThreshold : Int)
    (projects : HttpOutcome (List BacklogProject))
    (issuesOf : Nat → HttpOutcome (List BacklogRawIssue)) : List SearchResult :=
  if env.backlogSpaceId.isEmpty || env.backlogApiKey.isEmpty then []
  else
    match projects with
    | .exn _ => []
    | .notOk => []
    | .ok ps =>
      ps.flatMap fun project =>
        match issuesOf project.id with
        | .exn _ => []
        | .notOk => []
        | .ok issues =>
          issues.filterMap fun issue =>
            match issue.dueDateMs with
            | none => none
            | some due =>
              let diffDays := getDaysUntilDue due nowMs
              if upcomingDueFilter daysThreshold diffDays then
                some { source := "backlog", pageId := toString issue.id,
                       title := backlogIssueTitle diffDays issue.summary project.name,
                       url := "https://" ++ env.backlogSpaceId ++ ".backlog.jp/view/"
                              ++ issue.issueKey }
              else none

/-- Outcomes of the external calls the `multi-source-search` step would
issue, one per enabled source (the Backlog issues call is per project). -/
structure SearchOutcomes where
  confluence : HttpOutcome (List ConfluenceRawResult)
  notion : HttpOutcome (List NotionRawPage)
  backlogProjects : HttpOutcome (List BacklogProject)
  backlogIssuesOf : Nat → HttpOutcome (List BacklogRawIssue)

/-- The no-results error message of the `multi-source-search` step. -/
def noResultsMessage (sources : List String) : String :=
  "検索結果が見つかりませんでした。" ++ String.intercalate ", " sources
    ++ "に該当する情報があるか確認してください。"

/-- The no-results message is never the empty string. -/
theorem noResultsMessage_ne_empty (sources : List String) :
    noResultsMessage sources ≠ "" := by
  unfold noResultsMessage
  intro h
  have hlen := congrArg String.length h
  simp [String.length_append] at hlen
  exact absurd hlen.1.1 (by decide)

/-- Final aggregation of the `multi-source-search` step: when the
concatenated results are empty return the no-results error, otherwise the
results with no error. -/
def aggregateResults (sources : List String)
    (allResults : List SearchResult) : AggregatedSearch :=
  if allResults.isEmpty then
    { results := [], error := some (noResultsMessage sources) }
  else
    { results := allResults, error := none }

/-- The `multi-source-search` step: queries each enabled source in the
fixed order confluence, notion, backlog, concatenates the contributions,
and reports an error exactly when the concatenation is empty. -/
def multiSourceSearch (env : SearchEnv) (nowMs : Int)
    (sourcesIn : Option (List String)) (oc : SearchOutcomes) : AggregatedSearch :=
  let sources := sourcesIn.getD ["confluence", "notion", "backlog"]
  let allResults :=
    (if sources.contains "confluence" then confluenceContribution env oc.confluence else [])
    ++ (if sources.contains "notion" then notionContribution env oc.notion else [])
    ++ (if sources.contains "backlog" then
          backlogContribution env nowMs 14 oc.backlogProjects oc.backlogIssuesOf
        else [])
  aggregateResults sources allResults

/-- The aggregation invariant, stated on `aggregateResults`. -/
theorem aggregateResults_error_iff_empty (sources : List String)
    (allResults : List SearchResult) :
    ((aggregateResults sources allResults).error.isSome ↔
      (aggregateResults sources allResults).results = [])
    ∧ (aggregateResults sources allResults).error ≠ some "" := by
  unfold aggregateResults
  split
  · refine ⟨by simp, ?_⟩
    intro hcontr
    exact noResultsMessage_ne_empty _ (Option.some.inj hcontr)
  · next hNotEmpty =>
      rw [List.isEmpty_iff] at hNotEmpty
      exact ⟨by simpa using hNotEmpty, by simp⟩

/-- C1: in every run of the multi-source-search step, the error field is
set if and only if the results list is empty, and when set it is a
non-empty string; results non-empty together with a set error never
occurs. -/
theorem multiSourceSearch_error_iff_empty (env : SearchEnv) (nowMs : Int)
    (sourcesIn : Option (List String)) (oc : SearchOutcomes) :
    ((multiSourceSearch env nowMs sourcesIn oc).error.isSome ↔
      (multiSourceSearch env nowMs sourcesIn oc).results = [])
    ∧ (multiSourceSearch env nowMs sourcesIn oc).error ≠ some "" := by
  unfold multiSourceSearch
  dsimp only
  exact aggregateResults_error_iff_empty _ _

/-- All-sources-down fixture: no credentials configured anywhere. -/
def emptyEnv : SearchEnv :=
  { confluenceBaseUrl := "", confluenceApiToken := "", confluenceUserEmail := "",
    notionApiToken := "", backlogSpaceId := "", backlogApiKey := "" }

/-- Fixture in which every external call throws. -/
def allFailOutcomes : SearchOutcomes :=
  { confluence := .exn "down", notion := .exn "down",
    backlogProjects := .exn "down", backlogIssuesOf := fun _ => .exn "down" }

/-- Witness for C1: on an all-failing configuration the step reports a set
error and empty results, and the error is not the empty string. -/
theorem multiSourceSearch_error_iff_empty_witness :
    (multiSourceSearch emptyEnv 0 none allFailOutcomes).error.isSome = true
    ∧ (multiSourceSearch emptyEnv 0 none allFailOutcomes).error ≠ some "" := by
  refine ⟨?_, (multiSourceSearch_error_iff_empty emptyEnv 0 none allFailOutcomes).2⟩
  exact (multiSourceSearch_error_iff_empty emptyEnv 0 none allFailOutcomes).1.mpr (by decide)

/-- The Confluence search succeeds: both required credentials are present
and the HTTP call returned a success status. -/
def confluenceSucceeds (env : SearchEnv)
    (o : HttpOutcome (List ConfluenceRawResult)) : Bool :=
  !(env.confluenceBaseUrl.isEmpty || env.confluenceApiToken.isEmpty) && o.isOk

/-- The Notion search succeeds: the token is present and the HTTP call
returned a success status. -/
def notionSucceeds (env : SearchEnv) (o : HttpOutcome (List NotionRawPage)) : Bool :=
  !env.notionApiToken.isEmpty && o.isOk

/-- The Backlog search succeeds: both credentials are present and the
projects call returned a success status. -/
def backlogSucceeds (env : SearchEnv) (o : HttpOutcome (List BacklogProject)) : Bool :=
  !(env.backlogSpaceId.isEmpty || env.backlogApiKey.isEmpty) && o.isOk

/-- A failing Confluence source contributes no results. -/
theorem confluenceContribution_eq_nil (env : SearchEnv)
    (o : HttpOutcome (List ConfluenceRawResult))
    (h : confluenceSucceeds env o = false) : confluenceContribution env o = [] := by
  by_cases hc : (env.confluenceBaseUrl.isEmpty || env.confluenceApiToken.isEmpty) = true
  · simp [confluenceContribution, hc]
  · cases o with
    | exn m => simp [confluenceContribution, hc]
    | notOk => simp [confluenceContribution, hc]
    | ok rs => simp [confluenceSucceeds, hc, HttpOutcome.isOk] at h

/-- A failing Notion source contributes no results. -/
theorem notionContribution_eq_nil (env : SearchEnv)
    (o : HttpOutcome (List NotionRawPage))
    (h : notionSucceeds env o = false) : notionContribution env o = [] := by
  by_cases hc : env.notionApiToken.isEmpty = true
  · simp [notionContribution, hc]
  · cases o with
    | exn m => simp [notionContribution, hc]
    | notOk => simp [notionContribution, hc]
    | ok rs => simp [notionSucceeds, hc, HttpOutcome.isOk] at h

/-- A failing Backlog source contributes no results. -/
theorem backlogContribution_eq_nil (env : SearchEnv) (nowMs daysThreshold : Int)
    (projects : HttpOutcome (List BacklogProject))
    (issuesOf : Nat → HttpOutcome (List BacklogRawIssue))
    (h : backlogSucceeds env projects = false) :
    backlogContribution env nowMs daysThreshold projects issuesOf = [] := by
  by_cases hc : (env.backlogSpaceId.isEmpty || env.backlogApiKey.isEmpty) = true
  · simp [backlogContribution, hc]
  · cases projects with
    | exn m => simp [backlogContribution, hc]
    | notOk => simp [backlogContribution, hc]
    | ok ps => simp [backlogSucceeds, hc, HttpOutcome.isOk] at h

/-- With `sources` omitted, the step aggregates the three contributions in
the fixed order confluence, notion, backlog. -/
theorem multiSourceSearch_none_eq (env : SearchEnv) (nowMs : Int)
    (oc : SearchOutcomes) :
    multiSourceSearch env nowMs none oc =
      aggregateResults ["confluence", "notion", "backlog"]
        (confluenceContribution env oc.confluence
          ++ notionContribution env oc.notion
          ++ backlogContribution env nowMs 14 oc.backlogProjects oc.backlogIssuesOf) :=
  rfl

/-- C2 (amended): when exactly one of the three sources succeeds, the two
failing sources contribute nothing, so the step returns exactly the
reachable source's results; the error is absent provided those results are
non-empty. -/
theorem sourceIsolation (env : SearchEnv) (nowMs : Int) (oc : SearchOutcomes) :
    ((confluenceSucceeds env oc.confluence = true
        ∧ notionSucceeds env oc.notion = false
        ∧ backlogSucceeds env oc.backlogProjects = false
        ∧ confluenceContribution env oc.confluence ≠ []) →
      multiSourceSearch env nowMs none oc =
        { results := confluenceContribution env oc.confluence, error := none })
    ∧ ((notionSucceeds env oc.notion = true
        ∧ confluenceSucceeds env oc.confluence = false
        ∧ backlogSucceeds env oc.backlogProjects = false
        ∧ notionContribution env oc.notion ≠ []) →
      multiSourceSearch env nowMs none oc =
        { results := notionContribution env oc.notion, error := none })
    ∧ ((backlogSucceeds env oc.backlogProjects = true
        ∧ confluenceSucceeds env oc.confluence = false
        ∧ notionSucceeds env oc.notion = false
        ∧ backlogContribution env nowMs 14 oc.backlogProjects oc.backlogIssuesOf ≠ []) →
      multiSourceSearch env nowMs none oc =
        { results := backlogContribution env nowMs 14 oc.backlogProjects oc.backlogIssuesOf,
          error := none }) := by
  refine ⟨?_, ?_, ?_⟩
  · rintro ⟨-, h2, h3, hne⟩
    rw [multiSourceSearch_none_eq,
      notionContribution_eq_nil env oc.notion h2,
      backlogContribution_eq_nil env nowMs 14 oc.backlogProjects oc.backlogIssuesOf h3,
      List.append_nil, List.append_nil]
    unfold aggregateResults
    rw [if_neg (by simpa [List.isEmpty_iff] using hne)]
  · rintro ⟨-, h2, h3, hne⟩
    rw [multiSourceSearch_none_eq,
      confluenceContribution_eq_nil env oc.confluence h2,
      backlogContribution_eq_nil env nowMs 14 oc.backlogProjects oc.backlogIssuesOf h3,
      List.nil_append, List.append_nil]
    unfold aggregateResults
    rw [if_neg (by simpa [List.isEmpty_iff] using hne)]
  · rintro ⟨-, h2, h3, hne⟩
    rw [multiSourceSearch_none_eq,
      confluenceContribution_eq_nil env oc.confluence h2,
      notionContribution_eq_nil env oc.notion h3,
      List.nil_append, List.nil_append]
    unfold aggregateResults
    rw [if_neg (by simpa [List.isEmpty_iff] using hne)]

/-- Environment with only the Confluence credentials configured. -/
def confOnlyEnv : SearchEnv :=
  { confluenceBaseUrl := "https://conf.example", confluenceApiToken := "token",
    confluenceUserEmail := "mail@example.com", notionApiToken := "",
    backlogSpaceId := "", backlogApiKey := "" }

/-- Outcomes in which Confluence succeeds with zero hits while the other
two sources fail (missing credentials and thrown exceptions). -/
def confEmptyOutcomes : SearchOutcomes :=
  { confluence := .ok [], notion := .exn "ECONNREFUSED",
    backlogProjects := .exn "ECONNREFUSED", backlogIssuesOf := fun _ => .exn "ECONNREFUSED" }

/-- C2 counterexample: exactly one source (Confluence) succeeds and the
other two fail, yet the step's error field is set — because the reachable
source returned zero hits — contradicting the claim that in every such
configuration the step returns no error. -/
theorem sourceIsolation_counterexample :
    (confluenceSucceeds confOnlyEnv confEmptyOutcomes.confluence = true
      ∧ notionSucceeds confOnlyEnv confEmptyOutcomes.notion = false
      ∧ backlogSucceeds confOnlyEnv confEmptyOutcomes.backlogProjects = false)
    ∧ (multiSourceSearch confOnlyEnv 0 none confEmptyOutcomes).results = []
    ∧ (multiSourceSearch confOnlyEnv 0 none confEmptyOutcomes).error ≠ none := by
  decide

/-- Outcomes in which Confluence succeeds with one hit while the other two
sources fail. -/
def confOneHitOutcomes : SearchOutcomes :=
  { confluence := .ok [{ content := some ("42", "Design Doc"), url := "/spaces/x" }],
    notion := .exn "down", backlogProjects := .exn "down",
    backlogIssuesOf := fun _ => .exn "down" }

/-- Witness for C2 (amended): with one Confluence hit and the other two
sources failing, the step returns exactly the Confluence results and no
error. -/
theorem sourceIsolation_witness :
    multiSourceSearch confOnlyEnv 0 none confOneHitOutcomes =
      { results := [{ source := "confluence", pageId := "42", title := "Design Doc",
                      url := "https://conf.example/wiki/spaces/x" }],
        error := none } := by
  have h := (sourceIsolation confOnlyEnv 0 confOneHitOutcomes).1
    ⟨by decide, by decide, by decide, by decide⟩
  rw [h]
  decide

/-- The page object of the `fetch-page-content` step's output schema. -/
structure FetchedPage where
  source : String
  id : String
  title : String
  url : String
  content : Option String
deriving DecidableEq, Repr

/-- Output of the `fetch-page-content` step. -/
structure FetchOutput where
  page : FetchedPage
  error : Option String
deriving DecidableEq, Repr

/-- Confluence page payload used by the fetch step: `page.id`,
`page.title`, `page._links?.webui` and `page.body?.storage?.value`. -/
structure ConfluencePageDetail where
  id : String
  title : String
  webui : String
  bodyStorage : Option String

/-- Notion page payload used by the fetch step: only `page.url`. -/
structure NotionPageDetail where
  url : String

/-- One Notion content block: its `type` string and, when the lookup
`block.<type>.rich_text` is present, the list of its `plain_text`
pieces. -/
structure NotionBlock where
  btype : String
  richText : Option (List String)

/-- Markdown line produced for one Notion block: paragraph text as-is,
`# `/`## ` prefixes for headings, `- ` for bulleted items, and the empty
string for every unrecognized block type. -/
def notionBlockText (b : NotionBlock) : String :=
  if b.btype = "paragraph" then
    match b.richText with
    | some ts => String.join ts
    | none => ""
  else if b.btype = "heading_1" then
    match b.richText with
    | some ts => "# " ++ String.join ts
    | none => ""
  else if b.btype = "heading_2" then
    match b.richText with
    | some ts => "## " ++ String.join ts
    | none => ""
  else if b.btype = "bulleted_list_item" then
    match b.richText with
    | some ts => "- " ++ String.join ts
    | none => ""
  else ""

/-- The normalized Notion content: per-block lines with unrecognized/empty
lines dropped, joined by newlines. -/
def notionContent (blocks : List NotionBlock) : String :=
  String.intercalate "\n" ((blocks.map notionBlockText).filter (fun t => !t.isEmpty))

/-- Backlog issue payload used by the fetch step. -/
structure BacklogIssueDetail where
  id : Nat
  summary : String
  projectId : Nat
  dueDate : Option String
  priorityName : Option String
  statusName : Option String
  assigneeName : Option String
  description : Option String

/-- The fixed markdown template the fetch step synthesizes for a Backlog
issue. -/
def backlogContentTemplate (i : BacklogIssueDetail) : String :=
  "# " ++ i.summary ++ "\n\n**プロジェクト:** " ++ toString i.projectId
    ++ "\n**期限:** " ++ jsOr i.dueDate "未設定"
    ++ "\n**優先度:** " ++ jsOr i.priorityName "未設定"
    ++ "\n**ステータス:** " ++ jsOr i.statusName "不明"
    ++ "\n**担当者:** " ++ jsOr i.assigneeName "未割り当て"
    ++ "\n\n## 詳細\n" ++ jsOr i.description "詳細なし" ++ "\n"

/-- Outcomes of the fetch calls the `fetch-page-content` step would issue,
keyed by the page id passed in the request URL. -/
structure FetchOracles where
  confluenceFetch : String → HttpOutcome ConfluencePageDetail
  notionPage : String → HttpOutcome NotionPageDetail
  notionBlocks : String → HttpOutcome (List NotionBlock)
  backlogIssue : String → HttpOutcome BacklogIssueDetail

/-- The fall-through return of the fetch step when no branch produced a
page: content absent and the fixed failure message. -/
def fetchGenericFailure (firstResult : SearchResult) : FetchOutput :=
  { page := { source := firstResult.source, id := firstResult.pageId,
              title := firstResult.title, url := firstResult.url, content := none },
    error := some "ページ内容の取得に失敗しました" }

/-- The catch branch of the fetch step: content absent and the stringified
exception as the error. -/
def fetchCatch (firstResult : SearchResult) (msg : String) : FetchOutput :=
  { page := { source := firstResult.source, id := firstResult.pageId,
              title := firstResult.title, url := firstResult.url, content := none },
    error := some msg }

/-- Fetch-and-normalize for the selected first result, dispatching on its
source string exactly as the step's `if` chain does. -/
def fetchFirst (env : SearchEnv) (o : FetchOracles)
    (firstResult : SearchResult) : FetchOutput :=
  if firstResult.source = "confluence" then
    match o.confluenceFetch firstResult.pageId with
    | .exn msg => fetchCatch firstResult msg
    | .notOk => fetchGenericFailure firstResult
    | .ok page =>
      { page := { source := firstResult.source, id := page.id, title := page.title,
                  url := env.confluenceBaseUrl ++ "/wiki" ++ page.webui,
                  content := page.bodyStorage },
        error := none }
  else if firstResult.source = "notion" then
    match o.notionPage firstResult.pageId with
    | .exn msg => fetchCatch firstResult msg
    | pr =>
      match o.notionBlocks firstResult.pageId with
      | .exn msg => fetchCatch firstResult msg
      | br =>
        match pr, br with
        | .ok page, .ok blocks =>
          let content := notionContent blocks
          { page := { source := firstResult.source, id := firstResult.pageId,
                      title := firstResult.title, url := page.url,
                      content := if content.isEmpty then none else some content },
            error := none }
        | _, _ => fetchGenericFailure firstResult
  else if firstResult.source = "backlog" then
    match o.backlogIssue firstResult.pageId with
    | .exn msg => fetchCatch firstResult msg
    | .notOk => fetchGenericFailure firstResult
    | .ok issue =>
      { page := { source := firstResult.source, id := toString issue.id,
                  title := firstResult.title, url := firstResult.url,
                  content := some (backlogContentTemplate issue) },
        error := none }
  else fetchGenericFailure firstResult

/-- The `fetch-page-content` step: with an incoming error or an empty
result list it returns the degraded no-results page, otherwise it fetches
and normalizes the document of `results[0]` only. -/
def fetchPageStep (env : SearchEnv) (o : FetchOracles)
    (inp : AggregatedSearch) : FetchOutput :=
  match inp.results, jsTruthy inp.error with
  | firstResult :: _, false => fetchFirst env o firstResult
  | _, _ =>
    { page := { source := "none", id := "", title := "検索結果なし", url := "",
                content := none },
      error := some (jsOr inp.error
        "検索結果が見つかりませんでした。Notion、Backlog、Confluenceに該当する情報を作成するか、検索クエリを変更してください。") }

/-- The Confluence fetch oracle is id-consistent at `pid`: a successful
GET of page `pid` returns a page whose `id` field is `pid`. -/
def confluenceIdConsistent (o : FetchOracles) (pid : String) : Prop :=
  ∀ page, o.confluenceFetch pid = .ok page → page.id = pid

/-- The Backlog fetch oracle is id-consistent at `pid`: a successful GET
of issue `pid` returns an issue whose numeric id stringifies to `pid`. -/
def backlogIdConsistent (o : FetchOracles) (pid : String) : Prop :=
  ∀ issue, o.backlogIssue pid = .ok issue → toString issue.id = pid

/-- C5: on a non-empty aggregated list with no incoming error the step
fetches the document of `results[0]`: assuming the fetch APIs are
id-consistent (a GET by id returns that id), the returned page id equals
`results[0].pageId`, and the output is independent of every other result
in the list. -/
theorem fetchPageStep_selects_first (env : SearchEnv) (o : FetchOracles)
    (r : SearchResult) (rest : List SearchResult)
    (hc : confluenceIdConsistent o r.pageId)
    (hb : backlogIdConsistent o r.pageId) :
    (fetchPageStep env o { results := r :: rest, error := none }).page.id = r.pageId
    ∧ ∀ rest2, fetchPageStep env o { results := r :: rest, error := none }
        = fetchPageStep env o { results := r :: rest2, error := none } := by
  constructor
  · show (fetchFirst env o r).page.id = r.pageId
    unfold fetchFirst
    by_cases h1 : r.source = "confluence"
    · rw [if_pos h1]
      cases hcf : o.confluenceFetch r.pageId with
      | exn msg => simp [fetchCatch]
      | notOk => simp [fetchGenericFailure]
      | ok page => simpa using hc page hcf
    · rw [if_neg h1]
      by_cases h2 : r.source = "notion"
      · rw [if_pos h2]
        cases o.notionPage r.pageId with
        | exn msg => simp [fetchCatch]
        | notOk =>
          cases o.notionBlocks r.pageId with
          | exn msg => simp [fetchCatch]
          | notOk => simp [fetchGenericFailure]
          | ok blocks => simp [fetchGenericFailure]
        | ok page =>
          cases o.notionBlocks r.pageId with
          | exn msg => simp [fetchCatch]
          | notOk => simp [fetchGenericFailure]
          | ok blocks => simp
      · rw [if_neg h2]
        by_cases h3 : r.source = "backlog"
        · rw [if_pos h3]
          cases hbf : o.backlogIssue r.pageId with
          | exn msg => simp [fetchCatch]
          | notOk => simp [fetchGenericFailure]
          | ok issue => simpa using hb issue hbf
        · rw [if_neg h3]
          simp [fetchGenericFailure]
  · intro rest2
    rfl

/-- Constant id-consistent oracles used to witness C5. -/
def consistentOracles : FetchOracles :=
  { confluenceFetch := fun pid =>
      .ok { id := pid, title := "T", webui := "/pages/1", bodyStorage := some "<p>body</p>" },
    notionPage := fun _ => .ok { url := "https://notion.example/p" },
    notionBlocks := fun _ => .ok [],
    backlogIssue := fun _ => .notOk }

/-- A concrete Confluence search hit. -/
def confHit : SearchResult :=
  { source := "confluence", pageId := "123", title := "Doc", url := "https://conf.example/wiki/x" }

/-- Witness for C5: on a concrete two-element aggregated list the fetched
page id equals the first result's `pageId`, and dropping the tail does not
change the output. -/
theorem fetchPageStep_selects_first_witness :
    (fetchPageStep confOnlyEnv consistentOracles
        { results := [confHit, { source := "notion", pageId := "999", title := "N",
                                 url := "u" }],
          error := none }).page.id = "123"
    ∧ fetchPageStep confOnlyEnv consistentOracles
        { results := [confHit, { source := "notion", pageId := "999", title := "N",
                                 url := "u" }],
          error := none }
      = fetchPageStep confOnlyEnv consistentOracles
          { results := [confHit], error := none } := by
  have h := fetchPageStep_selects_first confOnlyEnv consistentOracles confHit
    [{ source := "notion", pageId := "999", title := "N", url := "u" }]
    (fun page hp => by
      simp only [consistentOracles] at hp
      injection hp with h
      rw [← h])
    (fun issue hp => by simp [consistentOracles] at hp)
  exact ⟨h.1, h.2 []⟩

/-- One synthesized GitHub issue (`title`, `body`), both for the model's
parsed output items and for the published issues. -/
structure SynthesizedIssue where
  title : String
  body : String
deriving DecidableEq, Repr

/-- The `create-development-tasks` step's output (the publish request of
`githubCreateIssueTool.inputSchema`). -/
structure PublishRequest where
  owner : String
  repo : String
  issues : List SynthesizedIssue
deriving DecidableEq, Repr

/-- The workflow init data consumed via `getInitData()`. -/
structure InitData where
  query : String
  owner : String
  repo : String
deriving DecidableEq, Repr

/-- Combined outcome of `assistantAgent.generateVNext`, `JSON.parse` of its
text, and `parsedResult.issues.map`: `ok` carries the parsed issue list;
`err` carries the stringified exception for any of the failure modes the
surrounding `try` catches (the generation call threw, the returned text
was not valid JSON, or the parsed value had no mappable `issues` array). -/
inductive GenOutcome where
  | ok (issues : List SynthesizedIssue)
  | err (msg : String)

/-- Body of the degraded single issue produced when no content reached the
synthesis step; it embeds the incoming error (or the fixed
content-unavailable text) after `### エラー詳細`. -/
def noContentBody (query : String) (error : Option String) : String :=
  "## 検索結果\n\n検索クエリ「" ++ query
    ++ "」に該当する情報がConfluenceで見つかりませんでした。\n\n### 次のアクション\n- [ ] Confluenceに該当する要件書やドキュメントが存在するか確認\n- [ ] 検索キーワードを変更して再検索\n- [ ] 必要に応じて新しいドキュメントをConfluenceに作成\n\n### エラー詳細\n"
    ++ jsOr error "コンテンツが取得できませんでした"
    ++ "\n\n---\n**検索ソース:** Confluence\n**検索クエリ:** " ++ query

/-- The provenance footer appended to every successfully synthesized
body. -/
def provenanceFooter (page : FetchedPage) : String :=
  "\n\n---\n**参照元:** [" ++ page.title ++ "](" ++ page.url ++ ") (" ++ page.source ++ ")"

/-- The `create-development-tasks` step.  With an incoming error or
absent/empty content it returns the degraded single-issue request without
consulting the model; otherwise it maps the model outcome, appending the
provenance footer to each body on success and falling back to the
single-issue error request when generation/parsing failed.  (`owner || ""`
on the string `owner` is the string itself, so `owner`/`repo` are carried
unchanged in every branch.) -/
def createDevelopmentTasks (init : InitData) (inp : FetchOutput)
    (gen : GenOutcome) : PublishRequest :=
  if jsTruthy inp.error || !(jsTruthy inp.page.content) then
    { owner := init.owner, repo := init.repo,
      issues := [{ title := "調査依頼: " ++ init.query,
                   body := noContentBody init.query inp.error }] }
  else
    match gen with
    | .ok issues =>
      { owner := init.owner, repo := init.repo,
        issues := issues.map fun issue =>
          { title := issue.title, body := issue.body ++ provenanceFooter inp.page } }
    | .err msg =>
      { owner := init.owner, repo := init.repo,
        issues := [{ title := "エラー: Issue作成に失敗",
                     body := "エラーが発生しました: " ++ msg }] }

/-- C3: the synthesis step is total — it always returns a publish request
carrying the init `owner`/`repo` — and degrades as specified: with an
incoming error or absent/empty content it returns exactly one issue whose
body embeds the failure text, independently of the model outcome (no model
result is used); and when the generation/parse fails it returns exactly
one issue whose body embeds the stringified error. -/
theorem createDevelopmentTasks_degraded (init : InitData) (inp : FetchOutput)
    (gen : GenOutcome) :
    ((createDevelopmentTasks init inp gen).owner = init.owner
      ∧ (createDevelopmentTasks init inp gen).repo = init.repo)
    ∧ ((jsTruthy inp.error || !(jsTruthy inp.page.content)) = true →
        (createDevelopmentTasks init inp gen).issues
          = [{ title := "調査依頼: " ++ init.query,
               body := noContentBody init.query inp.error }]
        ∧ ∀ gen2, createDevelopmentTasks init inp gen2 = createDevelopmentTasks init inp gen)
    ∧ (∀ msg, (jsTruthy inp.error || !(jsTruthy inp.page.content)) = false →
        createDevelopmentTasks init inp (.err msg)
          = { owner := init.owner, repo := init.repo,
              issues := [{ title := "エラー: Issue作成に失敗",
                           body := "エラーが発生しました: " ++ msg }] }) := by
  refine ⟨?_, ?_, ?_⟩
  · unfold createDevelopmentTasks
    split
    · exact ⟨rfl, rfl⟩
    · cases gen <;> exact ⟨rfl, rfl⟩
  · intro hcond
    unfold createDevelopmentTasks
    rw [if_pos hcond]
    exact ⟨rfl, fun gen2 => by rw [if_pos hcond]⟩
  · intro msg hcond
    unfold createDevelopmentTasks
    rw [if_neg (by simp [hcond])]

/-- Concrete init data for the synthesis witnesses. -/
def demoInit : InitData := { query := "auth redesign", owner := "acme", repo := "app" }

/-- A fetch output with content undefined and no incoming error. -/
def noContentFetch : FetchOutput :=
  { page := { source := "none", id := "", title := "検索結果なし", url := "", content := none },
    error := none }

/-- Witness for C3: at a concrete input with absent content the step
returns the degraded single-issue request for any model outcome, and with
content present a failing generation yields the single fallback issue. -/
theorem createDevelopmentTasks_degraded_witness :
    (createDevelopmentTasks demoInit noContentFetch (.ok [])).issues
      = [{ title := "調査依頼: auth redesign",
           body := noContentBody "auth redesign" none }]
    ∧ createDevelopmentTasks demoInit
        { page := { source := "confluence", id := "1", title := "T", url := "u",
                    content := some "c" }, error := none }
        (.err "SyntaxError: Unexpected token")
      = { owner := "acme", repo := "app",
          issues := [{ title := "エラー: Issue作成に失敗",
                       body := "エラーが発生しました: SyntaxError: Unexpected token" }] } := by
  constructor
  · exact ((createDevelopmentTasks_degraded demoInit noContentFetch (.ok [])).2.1
      (by decide)).1
  · exact (createDevelopmentTasks_degraded demoInit
      { page := { source := "confluence", id := "1", title := "T", url := "u",
                  content := some "c" }, error := none } (.ok [])).2.2
      "SyntaxError: Unexpected token" (by decide)

/-- Whether `pat` occurs in `s` starting at index `i`. -/
def occursAt (pat s : List Char) (i : Nat) : Bool :=
  decide ((s.drop i).take pat.length = pat)

/-- Number of indices at which `pat` occurs in `s` (overlapping
occurrences counted separately). -/
def countOccurrencesL (pat s : List Char) : Nat :=
  (List.range (s.length + 1)).countP (occursAt pat s)

/-- Number of occurrences of the substring `pat` in the string `s`. -/
def countOccurrences (pat s : String) : Nat :=
  countOccurrencesL pat.data s.data

/-- String concatenation concatenates the underlying character lists. -/
theorem data_append_eq (a b : String) : (a ++ b).data = a.data ++ b.data :=
  rfl

/-- A pattern sitting between two context lists is counted at least
once. -/
theorem countOccurrencesL_pos (pat pre post : List Char) :
    0 < countOccurrencesL pat (pre ++ (pat ++ post)) := by
  unfold countOccurrencesL
  rw [List.countP_pos_iff]
  refine ⟨pre.length, ?_, ?_⟩
  · simp only [List.mem_range, List.length_append]
    omega
  · unfold occursAt
    have hdrop : (pre ++ (pat ++ post)).drop pre.length = pat ++ post := by
      simp
    rw [hdrop]
    simp

/-- If `s` decomposes around `pat`, then `pat` occurs in `s` at least
once. -/
theorem countOccurrences_cover (pat s : String) (pre post : List Char)
    (h : s.data = pre ++ (pat.data ++ post)) : 0 < countOccurrences pat s := by
  unfold countOccurrences
  rw [h]
  exact countOccurrencesL_pos _ _ _

/-- A concrete fetch output whose content is present (successful fetch). -/
def demoFetch : FetchOutput :=
  { page := { source := "confluence", id := "1", title := "T", url := "http://u",
              content := some "c" },
    error := none }

/-- C4 counterexample: a successful synthesis in which the model-produced
body already mentions the page URL.  The step appends the provenance
footer regardless, so the published body contains the url substring twice,
contradicting the claim that every successfully synthesized body contains
the source url exactly once.  (The analysis prompt even instructs the
model to include the page URL in each body.) -/
theorem provenance_exactly_once_counterexample :
    (jsTruthy demoFetch.error || !(jsTruthy demoFetch.page.content)) = false
    ∧ countOccurrences demoFetch.page.url
        (((createDevelopmentTasks demoInit demoFetch
            (.ok [{ title := "t", body := "see http://u" }])).issues.headD
          { title := "", body := "" }).body) = 2 := by
  decide

/-- C4 (amended): every body returned from a successful synthesis contains
the source `url` and `title` substrings at least once, contributed by the
appended provenance footer; they appear exactly once only when the model's
own body text does not already contain them. -/
theorem provenance_at_least_once (init : InitData) (inp : FetchOutput)
    (raws : List SynthesizedIssue)
    (hcond : (jsTruthy inp.error || !(jsTruthy inp.page.content)) = false) :
    ∀ issue ∈ (createDevelopmentTasks init inp (.ok raws)).issues,
      0 < countOccurrences inp.page.url issue.body
      ∧ 0 < countOccurrences inp.page.title issue.body := by
  intro issue hmem
  unfold createDevelopmentTasks at hmem
  rw [if_neg (by simp [hcond])] at hmem
  simp only [List.mem_map] at hmem
  obtain ⟨raw, -, rfl⟩ := hmem
  constructor
  · refine countOccurrences_cover _ _
      ((raw.body ++ "\n\n---\n**参照元:** [" ++ inp.page.title ++ "](").data)
      ((") (" ++ inp.page.source ++ ")").data) ?_
    simp only [provenanceFooter, data_append_eq, List.append_assoc]
  · refine countOccurrences_cover _ _
      ((raw.body ++ "\n\n---\n**参照元:** [").data)
      (("](" ++ inp.page.url ++ ") (" ++ inp.page.source ++ ")").data) ?_
    simp only [provenanceFooter, data_append_eq, List.append_assoc]

/-- Witness for C4 (amended): at a concrete successful synthesis the
returned body contains the url and the title at least once. -/
theorem provenance_at_least_once_witness :
    0 < countOccurrences demoFetch.page.url
        ("b" ++ provenanceFooter demoFetch.page)
    ∧ 0 < countOccurrences demoFetch.page.title
        ("b" ++ provenanceFooter demoFetch.page) := by
  have h := provenance_at_least_once demoInit demoFetch
    [{ title := "t", body := "b" }] (by decide)
  exact h { title := "t", body := "b" ++ provenanceFooter demoFetch.page } (by
    unfold createDevelopmentTasks
    rw [if_neg (by decide)]
    simp)

/-- One configured Backlog space (`spaceId`, `apiKey`), as assembled by
`getBacklogSpaces`. -/
structure BacklogSpace where
  spaceId : String
  apiKey : String
deriving DecidableEq, Repr

/-- `callBacklogAPI` URL construction: the space's base URL, the endpoint,
and the `apiKey` query parameter joined with `&` when the endpoint already
carries a query string, `?` otherwise. -/
def callBacklogAPIUrl (spaceId apiKey endpoint : String) : String :=
  "https://" ++ spaceId ++ ".backlog.jp/api/v2" ++ endpoint
    ++ (if endpoint.data.contains '?' then "&" else "?") ++ "apiKey=" ++ apiKey

/-- The issues endpoint the urgent tool queries per project; the
open-status filter is the fixed set `statusId` 1, 2, 3. -/
def urgentIssuesEndpoint (projectId : Nat) : String :=
  "/issues?projectId[]=" ++ toString projectId
    ++ "&statusId[]=1&statusId[]=2&statusId[]=3&count=100"

/-- Input context of `backlogSearchUrgentIssuesTool`: the threshold
(schema default -1) and the declared optional `statusIds` parameter. -/
structure UrgentToolContext where
  daysThreshold : Int
  statusIds : Option (List Nat)
deriving DecidableEq, Repr

/-- Backlog API responses keyed by full request URL; `Except.error` covers
both a thrown fetch and a non-success status, since `callBacklogAPI`
throws on `!response.ok` and both are caught by the surrounding loops. -/
structure BacklogOracle where
  projectsAt : String → Except String (List BacklogProject)
  issuesAt : String → Except String (List BacklogRawIssue)

/-- A filtered issue before formatting: the raw issue spread together with
`projectName`, `daysUntilDue` and `spaceId`. -/
structure UrgentCandidate where
  issue : BacklogRawIssue
  projectName : String
  daysUntilDue : Int
  spaceId : String
deriving DecidableEq, Repr

/-- One entry of the urgent tool's output `issues` array; the `dueDate`
string is modelled by its millisecond timestamp. -/
structure FormattedIssue where
  id : String
  key : String
  summary : String
  dueDate : Option Int
  daysUntilDue : Option Int
  priority : String
  status : String
  assignee : String
  projectName : String
  url : String
deriving DecidableEq, Repr

/-- Output of `backlogSearchUrgentIssuesTool`. -/
structure UrgentToolOutput where
  issues : List FormattedIssue
  total : Nat
  error : Option String
deriving DecidableEq, Repr

/-- Formatting of one candidate into the tool's output shape. -/
def formatUrgentIssue (c : UrgentCandidate) : FormattedIssue :=
  { id := toString c.issue.id, key := c.issue.issueKey, summary := c.issue.summary,
    dueDate := c.issue.dueDateMs, daysUntilDue := some c.daysUntilDue,
    priority := jsOr c.issue.priorityName "未設定",
    status := jsOr c.issue.statusName "不明",
    assignee := jsOr c.issue.assigneeName "未割り当て",
    projectName := c.projectName,
    url := "https://" ++ c.spaceId ++ ".backlog.jp/view/" ++ c.issue.issueKey }

/-- Candidates contributed by one space: a failing projects call skips the
space, a failing per-project issues call skips the project, and each issue
with a due date and `daysUntil <= daysThreshold` is collected. -/
def spaceCandidates (o : BacklogOracle) (nowMs daysThreshold : Int)
    (space : BacklogSpace) : List UrgentCandidate :=
  match o.projectsAt (callBacklogAPIUrl space.spaceId space.apiKey "/projects") with
  | .error _ => []
  | .ok projects =>
    projects.flatMap fun project =>
      match o.issuesAt (callBacklogAPIUrl space.spaceId space.apiKey
          (urgentIssuesEndpoint project.id)) with
      | .error _ => []
      | .ok issues =>
        issues.filterMap fun issue =>
          match issue.dueDateMs with
          | none => none
          | some due =>
            let daysUntil := getDaysUntilDue due nowMs
            if daysUntil ≤ daysThreshold then
              some { issue := issue, projectName := project.name,
                     daysUntilDue := daysUntil, spaceId := space.spaceId }
            else none

/-- `backlogSearchUrgentIssuesTool.execute`: with no configured space the
configuration error is returned; otherwise the candidates of all spaces
are collected, sorted ascending by `daysUntilDue` (the JS comparator
`a.daysUntilDue - b.daysUntilDue` is a stable ascending sort, modelled by
insertion sort) and formatted.  Only `ctx.daysThreshold` is ever read from
the context. -/
def backlogSearchUrgentIssues (spaces : List BacklogSpace) (o : BacklogOracle)
    (nowMs : Int) (ctx : UrgentToolContext) : UrgentToolOutput :=
  if spaces.isEmpty then
    { issues := [], total := 0, error := some "Backlog API設定が不足しています" }
  else
    let allIssues := spaces.flatMap (spaceCandidates o nowMs ctx.daysThreshold)
    let sorted := allIssues.insertionSort (fun a b => a.daysUntilDue ≤ b.daysUntilDue)
    { issues := sorted.map formatUrgentIssue,
      total := (sorted.map formatUrgentIssue).length, error := none }

/-- Environment with only the Backlog credentials configured. -/
def backlogEnv : SearchEnv :=
  { confluenceBaseUrl := "", confluenceApiToken := "", confluenceUserEmail := "",
    notionApiToken := "", backlogSpaceId := "sp", backlogApiKey := "key" }

/-- A Backlog issue whose due date lies exactly `d` days after epoch. -/
def mkIssue (n : Nat) (d : Int) : BacklogRawIssue :=
  { id := n, issueKey := "ISS-" ++ toString n, summary := "s" ++ toString n,
    dueDateMs := some (d * 86400000), priorityName := none, statusName := none,
    assigneeName := none }

/-- Issues with days-until-due -2, -1, 0, 1, 3, 15 in that order. -/
def upcomingIssues : List BacklogRawIssue :=
  [mkIssue 1 (-2), mkIssue 2 (-1), mkIssue 3 0, mkIssue 4 1, mkIssue 5 3, mkIssue 6 15]

/-- Issues with days-until-due -1, 15, 0, 3, -2, 1 in that order (shuffled
so that the overdue variant's ascending sort is observable). -/
def overdueIssues : List BacklogRawIssue :=
  [mkIssue 1 (-1), mkIssue 2 15, mkIssue 3 0, mkIssue 4 3, mkIssue 5 (-2), mkIssue 6 1]

/-- Oracle returning one project `P` with the shuffled overdue issues. -/
def overdueOracle : BacklogOracle :=
  { projectsAt := fun _ => .ok [{ id := 7, name := "P" }],
    issuesAt := fun _ => .ok overdueIssues }

/-- C6: on issues with days-until-due {-2, -1, 0, 1, 3, 15}, the upcoming
filter (`diffDays <= threshold && diffDays >= 0`) at threshold 3 selects
exactly 0, 1, 3 in ascending order — shown both on the multi-source
Backlog block's filter and on the block run end-to-end at threshold 3 —
while the overdue variant (`backlogSearchUrgentIssuesTool`, upper bound
only) at threshold -1 selects exactly -2, -1, sorted ascending. -/
theorem dueDateThresholdBoundary :
    (([-2, -1, 0, 1, 3, 15] : List Int).filter (fun d => upcomingDueFilter 3 d)
      = [0, 1, 3])
    ∧ ((backlogContribution backlogEnv 0 3 (.ok [{ id := 7, name := "P" }])
          (fun _ => .ok upcomingIssues)).map (fun r => r.title)
      = ["[0日後期限] s3 (P)", "[1日後期限] s4 (P)", "[3日後期限] s5 (P)"])
    ∧ ((backlogSearchUrgentIssues [{ spaceId := "sp", apiKey := "key" }]
          overdueOracle 0 { daysThreshold := -1, statusIds := none }).issues.map
            (fun i => i.daysUntilDue)
      = [some (-2), some (-1)])
    ∧ ((backlogSearchUrgentIssues [{ spaceId := "sp", apiKey := "key" }]
          overdueOracle 0 { daysThreshold := -1, statusIds := none }).issues.map
            (fun i => i.key)
      = ["ISS-5", "ISS-1"]) := by
  decide

/-- The integer ceiling-division bounds for `getDaysUntilDue`. -/
theorem getDaysUntilDue_bounds (dueMs nowMs : Int) :
    86400000 * (getDaysUntilDue dueMs nowMs - 1) < dueMs - nowMs
    ∧ dueMs - nowMs ≤ 86400000 * getDaysUntilDue dueMs nowMs := by
  unfold getDaysUntilDue
  have h1 : 86400000 * ((dueMs - nowMs + (86400000 - 1)).ediv 86400000)
      + (dueMs - nowMs + (86400000 - 1)).emod 86400000
      = dueMs - nowMs + (86400000 - 1) :=
    Int.ediv_add_emod (dueMs - nowMs + (86400000 - 1)) 86400000
  have h2 : 0 ≤ (dueMs - nowMs + (86400000 - 1)).emod 86400000 :=
    Int.emod_nonneg (dueMs - nowMs + (86400000 - 1))
      (by norm_num : (86400000 : Int) ≠ 0)
  have h3 : (dueMs - nowMs + (86400000 - 1)).emod 86400000 < 86400000 :=
    Int.emod_lt_of_pos (dueMs - nowMs + (86400000 - 1))
      (by norm_num : (0 : Int) < 86400000)
  omega

/-- C9: `daysUntilDue` is the exact ceiling of the millisecond difference
divided by one day: `getDaysUntilDue` computes
`ceiling((dueDate - now) / 86400000)`, and every issue in the urgent
tool's output carries `daysUntilDue = getDaysUntilDue dueDate now`. -/
theorem daysUntilDue_is_ceiling :
    (∀ dueMs nowMs : Int,
      getDaysUntilDue dueMs nowMs = ⌈((dueMs - nowMs : Int) : ℚ) / (86400000 : ℚ)⌉)
    ∧ ∀ (spaces : List BacklogSpace) (o : BacklogOracle) (nowMs : Int)
        (ctx : UrgentToolContext),
        ∀ f ∈ (backlogSearchUrgentIssues spaces o nowMs ctx).issues,
          f.daysUntilDue = f.dueDate.map (fun due => getDaysUntilDue due nowMs) := by
  constructor
  · intro dueMs nowMs
    have hb := getDaysUntilDue_bounds dueMs nowMs
    have hC : (0 : ℚ) < 86400000 := by norm_num
    rw [eq_comm, Int.ceil_eq_iff]
    constructor
    · rw [lt_div_iff₀ hC]
      push_cast
      have hq : (86400000 : ℚ) * ((getDaysUntilDue dueMs nowMs : ℚ) - 1)
          < (dueMs : ℚ) - (nowMs : ℚ) := by exact_mod_cast hb.1
      linarith
    · rw [div_le_iff₀ hC]
      push_cast
      have hq : (dueMs : ℚ) - (nowMs : ℚ)
          ≤ (86400000 : ℚ) * (getDaysUntilDue dueMs nowMs : ℚ) := by exact_mod_cast hb.2
      linarith
  · intro spaces o nowMs ctx f hf
    unfold backlogSearchUrgentIssues at hf
    split at hf
    · simp at hf
    · simp only [List.mem_map] at hf
      obtain ⟨c, hc, rfl⟩ := hf
      rw [List.mem_insertionSort] at hc
      rw [List.mem_flatMap] at hc
      obtain ⟨space, -, hcs⟩ := hc
      unfold spaceCandidates at hcs
      split at hcs
      · simp at hcs
      · rw [List.mem_flatMap] at hcs
        obtain ⟨project, -, hcp⟩ := hcs
        split at hcp
        · simp at hcp
        · rw [List.mem_filterMap] at hcp
          obtain ⟨issue, -, hsome⟩ := hcp
          split at hsome
          · exact absurd hsome (by simp)
          · next due hdue =>
              dsimp only at hsome
              split at hsome
              · rw [Option.some.injEq] at hsome
                subst hsome
                simp [formatUrgentIssue, hdue]
              · exact absurd hsome (by simp)

/-- Default formatted issue used as a `headD` fallback. -/
def emptyFormattedIssue : FormattedIssue :=
  { id := "", key := "", summary := "", dueDate := none, daysUntilDue := none,
    priority := "", status := "", assignee := "", projectName := "", url := "" }

/-- Witness for C9: concrete evaluation of the ceiling equation and of the
output invariant on the first issue returned by the overdue fixture. -/
theorem daysUntilDue_is_ceiling_witness :
    getDaysUntilDue 86400001 0 = ⌈((86400001 - 0 : Int) : ℚ) / (86400000 : ℚ)⌉
    ∧ ((backlogSearchUrgentIssues [{ spaceId := "sp", apiKey := "key" }]
          overdueOracle 0 { daysThreshold := -1, statusIds := none }).issues.headD
        emptyFormattedIssue).daysUntilDue
      = ((backlogSearchUrgentIssues [{ spaceId := "sp", apiKey := "key" }]
          overdueOracle 0 { daysThreshold := -1, statusIds := none }).issues.headD
        emptyFormattedIssue).dueDate.map (fun due => getDaysUntilDue due 0) := by
  constructor
  · exact daysUntilDue_is_ceiling.1 86400001 0
  · exact daysUntilDue_is_ceiling.2 [{ spaceId := "sp", apiKey := "key" }]
      overdueOracle 0 { daysThreshold := -1, statusIds := none } _ (by decide)

/-- C10: the urgent tool's output never depends on the declared
`statusIds` input — only `daysThreshold` is read — and the per-project
issues request always carries the fixed open-status filter
`statusId[]=1&statusId[]=2&statusId[]=3`. -/
theorem statusIds_never_read :
    (∀ (spaces : List BacklogSpace) (o : BacklogOracle) (nowMs th : Int)
        (sids1 sids2 : Option (List Nat)),
      backlogSearchUrgentIssues spaces o nowMs { daysThreshold := th, statusIds := sids1 }
        = backlogSearchUrgentIssues spaces o nowMs { daysThreshold := th, statusIds := sids2 })
    ∧ ∀ projectId : Nat,
        0 < countOccurrences "statusId[]=1&statusId[]=2&statusId[]=3"
            (urgentIssuesEndpoint projectId) := by
  constructor
  · intro spaces o nowMs th s1 s2
    rfl
  · intro pid
    refine countOccurrences_cover _ _
      (("/issues?projectId[]=" ++ toString pid ++ "&").data) ("&count=100".data) ?_
    have htail : ("&statusId[]=1&statusId[]=2&statusId[]=3&count=100" : String).data
        = ("&" : String).data
          ++ (("statusId[]=1&statusId[]=2&statusId[]=3" : String).data
              ++ ("&count=100" : String).data) := by decide
    simp only [urgentIssuesEndpoint, data_append_eq, List.append_assoc, htail]
    simp

/-- Witness for C10: concrete instances of both conjuncts. -/
theorem statusIds_never_read_witness :
    backlogSearchUrgentIssues [{ spaceId := "sp", apiKey := "key" }] overdueOracle 0
        { daysThreshold := -1, statusIds := some [4] }
      = backlogSearchUrgentIssues [{ spaceId := "sp", apiKey := "key" }] overdueOracle 0
        { daysThreshold := -1, statusIds := none }
    ∧ 0 < countOccurrences "statusId[]=1&statusId[]=2&statusId[]=3"
        (urgentIssuesEndpoint 7) :=
  ⟨statusIds_never_read.1 [{ spaceId := "sp", apiKey := "key" }] overdueOracle 0 (-1)
      (some [4]) none,
   statusIds_never_read.2 7⟩

/-- A date as the route reads it off a JS `Date`: `getFullYear()` (read
but never used by the holiday check), `getMonth() + 1`, `getDate()`, and
`getDay()` with 0 = Sunday and 6 = Saturday. -/
structure JsDate where
  year : Int
  month : Nat
  day : Nat
  dayOfWeek : Nat
deriving DecidableEq, Repr

/-- The fixed holiday list of the route (month, day pairs). -/
def japaneseHolidays : List (Nat × Nat) :=
  [(1, 1), (2, 11), (2, 23), (4, 29), (5, 3), (5, 4), (5, 5), (8, 11), (11, 3), (11, 23)]

/-- `isJapaneseHoliday`: membership of (month, day) in the fixed list. -/
def isJapaneseHoliday (d : JsDate) : Bool :=
  japaneseHolidays.any fun h => h.1 = d.month && h.2 = d.day

/-- `isWeekday`: false on Sunday (0) and Saturday (6) and on a listed
holiday, true otherwise. -/
def isWeekday (d : JsDate) : Bool :=
  if d.dayOfWeek = 0 || d.dayOfWeek = 6 then false
  else if isJapaneseHoliday d then false
  else true

/-- The parsed request body of `POST /api/backlog-notify`; each field is
absent when the JSON omits it.  The destructuring default
`skipWeekendHoliday = true` applies when the field is absent. -/
structure NotifyBody where
  daysThreshold : Option Int
  channelId : Option String
  skipWeekendHoliday : Option Bool
deriving DecidableEq, Repr

/-- The `inputData` the route passes to
`backlogToSlackWorkflow.createRunAsync().start`. -/
structure WorkflowInput where
  daysThreshold : Int
  channelId : Option String
deriving DecidableEq, Repr

/-- Status of a finished workflow run. -/
inductive RunStatus where
  | success
  | failed
  | suspended
deriving DecidableEq, Repr

/-- The run result fields the route reads: `result.status`,
`result.result?.success`, `result.result?.messageUrl`,
`result.error?.message`, and the (stepId, status) pairs of
`result.steps`. -/
structure RunResult where
  status : RunStatus
  resultSuccess : Option Bool
  messageUrl : Option String
  errorMessage : Option String
  stepIds : List (String × String)
deriving DecidableEq, Repr

/-- The JSON payload the route responds with (fields absent from a branch
are `none`). -/
structure NotifyResponse where
  success : Option Bool
  message : Option String
  skipped : Option Bool
  messageUrl : Option String
  steps : Option (List (String × String))
deriving DecidableEq, Repr

/-- The gate response: `{success: true, message: ..., skipped: true,
steps: []}`, returned before the workflow is even looked up. -/
def skippedResponse : NotifyResponse :=
  { success := some true, message := some "土日祝日のため通知をスキップしました",
    skipped := some true, messageUrl := none, steps := some [] }

/-- The workflow input the route constructs:
`daysThreshold: daysThreshold ?? -1`, `channelId` forwarded. -/
def notifyWorkflowInput (body : NotifyBody) : WorkflowInput :=
  { daysThreshold := body.daysThreshold.getD (-1), channelId := body.channelId }

/-- The response built from a finished run: message and success flag by
status, `messageUrl` only on success, steps forwarded. -/
def notifyResponseOf (result : RunResult) : NotifyResponse :=
  match result.status with
  | .success =>
    { success := some (result.resultSuccess.getD false),
      message := some "Slackへの通知が完了しました", skipped := none,
      messageUrl := result.messageUrl, steps := some result.stepIds }
  | .failed =>
    { success := some false, message := some (jsOr result.errorMessage "不明なエラー"),
      skipped := none, messageUrl := none, steps := some result.stepIds }
  | .suspended =>
    { success := some false, message := some "ワークフローが一時停止しました",
      skipped := none, messageUrl := none, steps := some result.stepIds }

/-- `POST /api/backlog-notify` (the weekday-gate version): when
`skipWeekendHoliday` (default true) is set and `now` is not a weekday the
gate response is returned immediately; otherwise the workflow is run on
`notifyWorkflowInput body` and its result converted to the response. -/
def backlogNotifyPost (body : NotifyBody) (now : JsDate)
    (runWorkflow : WorkflowInput → RunResult) : NotifyResponse :=
  if body.skipWeekendHoliday.getD true && !(isWeekday now) then
    skippedResponse
  else
    notifyResponseOf (runWorkflow (notifyWorkflowInput body))

/-- C7: with `skipWeekendHoliday` enabled (its default) and the current
date a Saturday, a Sunday or a listed fixed holiday, the endpoint returns
the skipped response with `success: true` and `skipped: true`, and the
output does not depend on the workflow runner at all — the workflow, the
tracker and the chat sink are never invoked. -/
theorem weekdayGateSkips (body : NotifyBody) (now : JsDate)
    (run run2 : WorkflowInput → RunResult)
    (hskip : body.skipWeekendHoliday.getD true = true)
    (hday : now.dayOfWeek = 6 ∨ now.dayOfWeek = 0 ∨ isJapaneseHoliday now = true) :
    backlogNotifyPost body now run = skippedResponse
    ∧ backlogNotifyPost body now run = backlogNotifyPost body now run2
    ∧ skippedResponse.success = some true
    ∧ skippedResponse.skipped = some true := by
  have hw : isWeekday now = false := by
    unfold isWeekday
    rcases hday with h | h | h
    · rw [if_pos (by simp [h])]
    · rw [if_pos (by simp [h])]
    · by_cases hd : (now.dayOfWeek = 0 || now.dayOfWeek = 6) = true
      · rw [if_pos hd]
      · rw [if_neg hd, if_pos h]
  have hgate : (body.skipWeekendHoliday.getD true && !(isWeekday now)) = true := by
    rw [hskip, hw]
    rfl
  unfold backlogNotifyPost
  rw [if_pos hgate, if_pos hgate]
  exact ⟨rfl, rfl, rfl, rfl⟩

/-- A Saturday (2026-10-10). -/
def aSaturday : JsDate := { year := 2026, month := 10, day := 10, dayOfWeek := 6 }

/-- A workflow runner that reflects its input's threshold into
`messageUrl`, making the passed `daysThreshold` observable. -/
def observingRun : WorkflowInput → RunResult := fun inp =>
  { status := .success, resultSuccess := some true,
    messageUrl := some (toString inp.daysThreshold), errorMessage := none, stepIds := [] }

/-- A request body omitting every optional field. -/
def emptyBody : NotifyBody :=
  { daysThreshold := none, channelId := none, skipWeekendHoliday := none }

/-- A request body omitting `daysThreshold` with the gate disabled. -/
def noGateBody : NotifyBody :=
  { daysThreshold := none, channelId := none, skipWeekendHoliday := some false }

/-- Witness for C7: on a concrete Saturday with an empty body the endpoint
returns the skipped response without consulting the workflow runner. -/
theorem weekdayGateSkips_witness :
    backlogNotifyPost emptyBody aSaturday observingRun = skippedResponse := by
  exact (weekdayGateSkips emptyBody aSaturday observingRun observingRun
    (by decide) (by decide)).1

/-- A plain Wednesday (2026-10-07), neither weekend nor listed holiday. -/
def aWednesday : JsDate := { year := 2026, month := 10, day := 7, dayOfWeek := 3 }

/-- C8 counterexample: a POST whose body omits `daysThreshold` starts the
workflow with `daysThreshold = -1`, not 3: the route applies `?? -1`
before the workflow schema's `default(3)` could ever fire.  The observing
runner echoes the threshold it received into `messageUrl`. -/
theorem daysThresholdDefault_counterexample :
    (notifyWorkflowInput noGateBody).daysThreshold = -1
    ∧ (notifyWorkflowInput noGateBody).daysThreshold ≠ 3
    ∧ (backlogNotifyPost noGateBody aWednesday observingRun).messageUrl = some "-1" := by
  decide

/-- C8 (amended): for every POST body omitting `daysThreshold`, the
workflow is started with `daysThreshold = -1` (the route's `?? -1`
fallback), and whenever the gate does not trip the response is exactly the
one built from the run on that input. -/
theorem daysThresholdDefaultMinusOne (body : NotifyBody)
    (h : body.daysThreshold = none) :
    (notifyWorkflowInput body).daysThreshold = -1
    ∧ ∀ (now : JsDate) (run : WorkflowInput → RunResult),
        (body.skipWeekendHoliday.getD true && !(isWeekday now)) = false →
        backlogNotifyPost body now run = notifyResponseOf (run (notifyWorkflowInput body)) := by
  constructor
  · simp [notifyWorkflowInput, h]
  · intro now run hgate
    unfold backlogNotifyPost
    rw [if_neg (by simp [hgate])]

/-- Witness for C8 (amended): concrete evaluation on an empty body and a
weekday. -/
theorem daysThresholdDefaultMinusOne_witness :
    (notifyWorkflowInput emptyBody).daysThreshold = -1
    ∧ backlogNotifyPost emptyBody aWednesday observingRun
      = notifyResponseOf (observingRun (notifyWorkflowInput emptyBody)) := by
  refine ⟨(daysThresholdDefaultMinusOne emptyBody rfl).1, ?_⟩
  exact (daysThresholdDefaultMinusOne emptyBody rfl).2 aWednesday observingRun (by decide)

end MastraSpec
